import Mathlib

/-!
Verification of the cancelable, progress-reporting task runner of
`Dummy-Token-Logger/dummy_token_logger_v1.2.py`.

The runner is embedded shallowly: the shared cancellation flag, the
counter of flag reads, and the ordered record of emitted socket events
form an explicit state `St` threaded through every helper.  The outside
world (the control surface pressing Cancel between two flag reads, and
the external browser-automation collaborator failing) is an oracle `Env`.
A raised, uncaught Python exception is `Except.error` carrying the state
at the raise point; normal return is `Except.ok`.

Numeric work follows the source: Python ints are `ℤ`, the float
expressions `((i-1)/total)*100`, `(i/total)*100` and
`(step_end-step_start)*((t+1)/3)` are modelled over `ℚ` (exact for the
denominators 4 and 3 that the program reaches), and Python `int(...)`
truncation toward zero is `pyInt`.
-/

/-- One event pushed to the observer over the socket channel:
`socketio.emit("log"/"progress"/"status", ...)`. -/
inductive Event where
  | log (message : String)
  | progress (percent : ℤ)
  | status (running : Bool)
deriving DecidableEq, Repr

/-- Python `int(...)` truncation toward zero on a rational. -/
def pyInt (q : ℚ) : ℤ := if 0 ≤ q then ⌊q⌋ else ⌈q⌉

/-- Runner-visible shared state: the cancellation flag `cancel_flag`, a
counter of flag reads (indexing the points where a concurrent `set` can
be observed), and the events emitted so far, in emission order. -/
structure St where
  flag : Bool
  tick : ℕ
  events : List Event
deriving DecidableEq, Repr

/-- The outside world: `cancelAt n` says whether a cancel request has been
issued in the gap before the `n`-th flag read (the control surface can only
`set` the flag, never clear it); `gotoFail i` says whether `page.goto`
raises at step `i`; `typeFail i` says whether the Google typing sub-action
raises at step `i`. -/
structure Env where
  cancelAt : ℕ → Bool
  gotoFail : ℕ → Bool
  typeFail : ℕ → Bool

/-- Process start state: flag clear, nothing emitted. -/
def St.init : St := ⟨false, 0, []⟩

/-- `emit_log(msg, delay)`: push a log line (the delay is pacing only). -/
def emit_log (msg : String) (s : St) : St :=
  { s with events := s.events ++ [Event.log msg] }

/-- The percent delivered by `emit_progress`:
`int(max(0, min(100, percent)))`. -/
def progressPercent (p : ℚ) : ℤ := pyInt (max 0 (min 100 p))

/-- `emit_progress(percent)`: clamp to `[0,100]`, truncate, deliver. -/
def emit_progress (p : ℚ) (s : St) : St :=
  { s with events := s.events ++ [Event.progress (progressPercent p)] }

/-- One `cancel_flag.is_set()` read: the environment's pending `set` (if
any) is absorbed into the flag, the read counter advances, and the
observed value is returned. -/
def readFlag (e : Env) (s : St) : Bool × St :=
  let f := s.flag || e.cancelAt s.tick
  (f, { s with flag := f, tick := s.tick + 1 })

/-- `cancel_flag.clear()`. -/
def clearFlag (s : St) : St := { s with flag := false }

/-- The fields of a parsed reference that `_safe_url` inspects. -/
structure ParseResult where
  scheme : String
  netloc : String
deriving DecidableEq, Repr

/-- `_safe_url(u)`: accept only a parse with scheme `http`/`https` and a
non-empty `netloc`; a parse exception is caught and means rejection.  The
parser is the external `urllib.parse.urlparse` collaborator, passed as a
parameter; the embedding is total, so the predicate always returns a
`Bool` for every input. -/
def _safe_url (parse : String → Except String ParseResult) (u : String) : Bool :=
  match parse u with
  | Except.ok p => (p.scheme == "http" || p.scheme == "https") && !(p.netloc == "")
  | Except.error _ => false

/-- Split a character list at the first character satisfying `p`. -/
def takeUntil (p : Char → Bool) : List Char → List Char × List Char
  | [] => ([], [])
  | c :: cs =>
    if p c then ([], c :: cs)
    else
      let r := takeUntil p cs
      (c :: r.1, r.2)

/-- Characters allowed in a URL scheme after the leading letter. -/
def schemeChar (c : Char) : Bool := c.isAlphanum || c == '+' || c == '-' || c == '.'

/-- Modelled from the spec: the external `urllib.parse.urlparse`
collaborator consumed by `_safe_url` (not part of this repository).  Per
the spec it yields a well-formed reference with a scheme and host
component, and parsing can raise: a scheme is the lowercased prefix of
letters/digits/`+-.` before a `:` whose first character is a letter, the
host (`netloc`) follows a `//` and runs to the next `/`, `?` or `#`, and
mismatched IPv6 brackets in the netloc raise a `ValueError`. -/
def urlparseM (u : String) : Except String ParseResult :=
  let cs := u.data
  let sp := takeUntil (fun c => c == ':') cs
  let sr : List Char × List Char :=
    match sp.2 with
    | ':' :: after =>
      if !sp.1.isEmpty && (sp.1.headD ' ').isAlpha && sp.1.all schemeChar then
        (sp.1.map Char.toLower, after)
      else ([], cs)
    | _ => ([], cs)
  let nl : List Char :=
    match sr.2 with
    | '/' :: '/' :: r => (takeUntil (fun c => c == '/' || c == '?' || c == '#') r).1
    | _ => []
  if (nl.contains '[' && !nl.contains ']') || (nl.contains ']' && !nl.contains '[') then
    Except.error "Invalid IPv6 URL"
  else
    Except.ok ⟨⟨sr.1⟩, ⟨nl⟩⟩

/-- `step_start = int(((i - 1) / total) * 100)`. -/
def step_start (i total : ℕ) : ℤ := pyInt ((((i : ℚ) - 1) / (total : ℚ)) * 100)

/-- `step_end = int((i / total) * 100)`. -/
def step_end (i total : ℕ) : ℤ := pyInt (((i : ℚ) / (total : ℚ)) * 100)

/-- Argument of the "opened" progress emission:
`max(step_start, min(step_end - 5, 95))`. -/
def openedVal (ss se : ℤ) : ℤ := max ss (min (se - 5) 95)

/-- Argument of the inner-loop progress emission:
`step_start + int((step_end - step_start) * frac)` with `frac = (t+1)/3`. -/
def innerVal (ss se : ℤ) (t : ℕ) : ℤ :=
  ss + pyInt (((se : ℚ) - (ss : ℚ)) * (((t : ℚ) + 1) / 3))

/-- The fixed step list of `demo_sequence`. -/
def urls0 : List (String × String) :=
  [("Example Domain", "https://example.com"),
   ("Python.org", "https://www.python.org"),
   ("Wikipedia", "https://www.wikipedia.org"),
   ("Google", "https://www.google.com")]

/-- `urls = [(n, u) for (n, u) in urls if _safe_url(u)]`. -/
def filteredUrls : List (String × String) :=
  urls0.filter (fun nu => _safe_url urlparseM nu.2)

/-- Does `n` occur at the head of the second list? -/
def listStarts : List Char → List Char → Bool
  | [], _ => true
  | _ :: _, [] => false
  | a :: as, b :: bs => a == b && listStarts as bs

/-- Python's `needle in haystack` substring test. -/
def listHasSub (n : List Char) : List Char → Bool
  | [] => n.isEmpty
  | c :: cs => listStarts n (c :: cs) || listHasSub n cs

/-- The special Google sub-action: on a URL containing `google.com` and
with the flag not set, type into the search bar; any failure of the
typing is caught locally and logged. -/
def googlePart (e : Env) (i : ℕ) (url : String) (s : St) : St :=
  if listHasSub "google.com".data url.data then
    let r := readFlag e s
    if r.1 then r.2
    else
      let s := emit_log "[ACTION] Typing into the Google search bar..." r.2
      if e.typeFail i then
        emit_log "[ERROR] Google typing failed: <exception>" s
      else
        emit_log "[DONE] Typed text without submitting." s
  else s

/-- The inner fixed 3-iteration observation loop (`for t in range(3)`),
with a cancellation checkpoint at each iteration. -/
def innerLoop (e : Env) (ss se : ℤ) : List ℕ → St → St
  | [], s => s
  | t :: ts, s =>
    let r := readFlag e s
    if r.1 then emit_log "[CANCEL] Stopping midway..." r.2
    else
      let s := emit_log ("[WAIT] Observing content... " ++ toString (t + 1) ++ "/3") r.2
      let s := emit_progress ((innerVal ss se t : ℤ) : ℚ) s
      innerLoop e ss se ts s

/-- The part of a step after `page.goto` succeeded: opened log, opened
progress, Google sub-action, inner observation loop. -/
def afterGoto (e : Env) (total i : ℕ) (url : String) (s : St) : St :=
  let ss := step_start i total
  let se := step_end i total
  let s := emit_log ("[OPENED] " ++ url) s
  let s := emit_progress ((openedVal ss se : ℤ) : ℚ) s
  let s := googlePart e i url s
  innerLoop e ss se [0, 1, 2] s

/-- The outer step loop of `demo_sequence`: checkpoint, visit, step body,
post-inner checkpoint; `page.goto` raising is an uncaught exception. -/
def stepLoop (e : Env) (total : ℕ) : List (ℕ × String × String) → St → Except St St
  | [], s => Except.ok s
  | (i, n, u) :: rest, s =>
    let r := readFlag e s
    if r.1 then
      Except.ok (emit_log "[CANCEL] Run aborted by user before visiting next site." r.2)
    else
      let s := emit_log ("[STEP " ++ toString i ++ "] Visiting " ++ n ++ " ...") r.2
      if e.gotoFail i then Except.error s
      else
        let s := afterGoto e total i u s
        let r2 := readFlag e s
        if r2.1 then Except.ok r2.2 else stepLoop e total rest r2.2

/-- After the step loop: cleanup log, close the browser, then the
terminal handling — cancelled (cancel log, progress 0, clear the flag)
or completed (progress 100, completion log). -/
def demoPost (e : Env) (s : St) : St :=
  let s := emit_log "[CLEANUP] Closing browser window..." s
  let r := readFlag e s
  if r.1 then
    clearFlag (emit_progress 0 (emit_log "[SYS] Playwright run cancelled." r.2))
  else
    emit_log "[DONE] Demo sequence completed ✅" (emit_progress 100 r.2)

/-- Step loop followed by the unconditional cleanup/terminal handling;
an uncaught exception in the loop skips both. -/
def demoFrom (e : Env) (total : ℕ) (steps : List (ℕ × String × String)) (s : St) :
    Except St St :=
  match stepLoop e total steps s with
  | Except.error s => Except.error s
  | Except.ok s => Except.ok (demoPost e s)

/-- `demo_sequence()`: filter the step list, launch the browser, run the
step loop, cleanup, terminal handling. -/
def demo_sequence (e : Env) (s : St) : Except St St :=
  demoFrom e filteredUrls.length (List.enumFrom 1 filteredUrls)
    (emit_log "[PLAYWRIGHT] Launching visible Chromium browser..." s)

/-- The four boot log lines of `dummy_log_sequence`. -/
def introLines : List String :=
  ["[INFO] Initializing dummy token logger...",
   "[BOOT] Loading environment variables...",
   "[SYS] Connection established.",
   "[OK] Starting Playwright page demo..."]

/-- The start-of-run reset: `if cancel_flag.is_set(): cancel_flag.clear()`. -/
def preclear (e : Env) (s : St) : St :=
  let r := readFlag e s
  if r.1 then clearFlag r.2 else r.2

/-- The boot log loop, checking cancellation after each line; on a set
flag it emits the abort log and returns (aborted = `true`). -/
def introLoop (e : Env) : List String → St → Bool × St
  | [], s => (false, s)
  | line :: rest, s =>
    let s := emit_log line s
    let r := readFlag e s
    if r.1 then (true, emit_log "[CANCEL] User aborted before Playwright started." r.2)
    else introLoop e rest r.2

/-- The three outro log lines. -/
def outroLines : List String :=
  ["[SYS] Performing cleanup...",
   "[OK] Demo sequence complete.",
   "[EXIT] All systems normal. Goodbye."]

/-- Emit a list of log lines in order. -/
def emitAll (lines : List String) (s : St) : St :=
  lines.foldl (fun s m => emit_log m s) s

/-- `dummy_log_sequence()`: start-of-run reset, boot logs with abort
checkpoints, the demo sequence (whose exceptions propagate), then the
outro logs when the flag is not set. -/
def dummy_log_sequence (e : Env) (s : St) : Except St St :=
  let s := preclear e s
  match introLoop e introLines s with
  | (true, s) => Except.ok s
  | (false, s) =>
    match demo_sequence e s with
    | Except.error s => Except.error s
    | Except.ok s =>
      let r := readFlag e s
      if r.1 then Except.ok r.2 else Except.ok (emitAll outroLines r.2)

/-- The subsequence of progress percents in an event list. -/
def progressOf (evs : List Event) : List ℤ :=
  evs.filterMap (fun ev =>
    match ev with
    | Event.progress p => some p
    | _ => none)

/-- Spec-worded `step_start = floor((i-1)/total*100)`. -/
def specStepStart (i total : ℕ) : ℤ := ⌊(((i : ℚ) - 1) / (total : ℚ)) * 100⌋

/-- Spec-worded `step_end = floor(i/total*100)`. -/
def specStepEnd (i total : ℕ) : ℤ := ⌊((i : ℚ) / (total : ℚ)) * 100⌋

/-- Spec-worded `clamp(x, lo, hi)`. -/
def clampSpec (x lo hi : ℤ) : ℤ := max lo (min x hi)

/-- The percent actually delivered by the "opened" emission of step `i`. -/
def openedPercent (i total : ℕ) : ℤ :=
  progressPercent ((openedVal (step_start i total) (step_end i total) : ℤ) : ℚ)

/-- The percent actually delivered by inner-loop iteration `t` of step `i`. -/
def innerPercent (i total t : ℕ) : ℤ :=
  progressPercent ((innerVal (step_start i total) (step_end i total) t : ℤ) : ℚ)

/-- A world that never cancels and where no external action fails. -/
def envQuiet : Env := ⟨fun _ => false, fun _ => false, fun _ => false⟩

/-- A world where the cancel request is already pending at every read. -/
def envCancelAll : Env := ⟨fun _ => true, fun _ => false, fun _ => false⟩

/-- A world where the cancel request arrives after the first flag read. -/
def envCancelLate : Env := ⟨fun n => decide (1 ≤ n), fun _ => false, fun _ => false⟩

/-- A world where every `page.goto` raises. -/
def envGotoBoom : Env := ⟨fun _ => false, fun _ => true, fun _ => false⟩

/-- The progress trace of the uncancelled, failure-free run from process
start. -/
def quietTrace : List ℤ :=
  match demo_sequence envQuiet St.init with
  | Except.ok s => progressOf s.events
  | Except.error _ => []


-- ### Helper lemmas: pyInt and progressPercent

theorem pyInt_of_nonneg {q : ℚ} (h : 0 ≤ q) : pyInt q = ⌊q⌋ := if_pos h

theorem progressPercent_nonneg (p : ℚ) : 0 ≤ progressPercent p := by
  unfold progressPercent
  rw [pyInt_of_nonneg (le_max_left _ _)]
  exact Int.le_floor.2 (by exact_mod_cast le_max_left _ _)

theorem progressPercent_le (p : ℚ) : progressPercent p ≤ 100 := by
  unfold progressPercent
  rw [pyInt_of_nonneg (le_max_left _ _)]
  have h1 : max 0 (min 100 p) ≤ (100 : ℚ) :=
    max_le (by norm_num) (min_le_left _ _)
  calc ⌊max 0 (min 100 p)⌋ ≤ ⌊(100 : ℚ)⌋ := Int.floor_le_floor h1
    _ = 100 := by norm_num

/-- `emit_progress` called on an integer delivers the integer clamp. -/
theorem ppCast (x : ℤ) : progressPercent ((x : ℤ) : ℚ) = max 0 (min 100 x) := by
  unfold progressPercent pyInt
  have hcast : max 0 (min 100 ((x : ℤ) : ℚ)) = ((max 0 (min 100 x) : ℤ) : ℚ) := by
    push_cast
    rfl
  rw [hcast, if_pos (by exact_mod_cast le_max_left 0 (min 100 x)), Int.floor_intCast]

-- ### Helper lemmas: concrete values of the step arithmetic

theorem filteredUrls_eq : filteredUrls = urls0 := by decide

theorem stepStart14 : step_start 1 4 = 0 := by norm_num [step_start, pyInt]
theorem stepStart24 : step_start 2 4 = 25 := by norm_num [step_start, pyInt]
theorem stepStart34 : step_start 3 4 = 50 := by norm_num [step_start, pyInt]
theorem stepStart44 : step_start 4 4 = 75 := by norm_num [step_start, pyInt]
theorem stepEnd14 : step_end 1 4 = 25 := by norm_num [step_end, pyInt]
theorem stepEnd24 : step_end 2 4 = 50 := by norm_num [step_end, pyInt]
theorem stepEnd34 : step_end 3 4 = 75 := by norm_num [step_end, pyInt]
theorem stepEnd44 : step_end 4 4 = 100 := by norm_num [step_end, pyInt]

theorem innerValA0 : innerVal 0 25 0 = 8 := by norm_num [innerVal, pyInt]
theorem innerValA1 : innerVal 0 25 1 = 16 := by norm_num [innerVal, pyInt]
theorem innerValA2 : innerVal 0 25 2 = 25 := by norm_num [innerVal, pyInt]
theorem innerValB0 : innerVal 25 50 0 = 33 := by norm_num [innerVal, pyInt]
theorem innerValB1 : innerVal 25 50 1 = 41 := by norm_num [innerVal, pyInt]
theorem innerValB2 : innerVal 25 50 2 = 50 := by norm_num [innerVal, pyInt]
theorem innerValC0 : innerVal 50 75 0 = 58 := by norm_num [innerVal, pyInt]
theorem innerValC1 : innerVal 50 75 1 = 66 := by norm_num [innerVal, pyInt]
theorem innerValC2 : innerVal 50 75 2 = 75 := by norm_num [innerVal, pyInt]
theorem innerValD0 : innerVal 75 100 0 = 83 := by norm_num [innerVal, pyInt]
theorem innerValD1 : innerVal 75 100 1 = 91 := by norm_num [innerVal, pyInt]
theorem innerValD2 : innerVal 75 100 2 = 100 := by norm_num [innerVal, pyInt]

theorem openedA : openedVal 0 25 = 20 := by decide
theorem openedB : openedVal 25 50 = 45 := by decide
theorem openedC : openedVal 50 75 = 70 := by decide
theorem openedD : openedVal 75 100 = 95 := by decide

theorem ppEval0 : progressPercent ((0 : ℚ)) = 0 := by decide
theorem ppEval100 : progressPercent ((100 : ℚ)) = 100 := by decide

theorem specSS14 : specStepStart 1 4 = 0 := by norm_num [specStepStart]
theorem specSS24 : specStepStart 2 4 = 25 := by norm_num [specStepStart]
theorem specSS34 : specStepStart 3 4 = 50 := by norm_num [specStepStart]
theorem specSS44 : specStepStart 4 4 = 75 := by norm_num [specStepStart]
theorem specSE14 : specStepEnd 1 4 = 25 := by norm_num [specStepEnd]
theorem specSE24 : specStepEnd 2 4 = 50 := by norm_num [specStepEnd]
theorem specSE34 : specStepEnd 3 4 = 75 := by norm_num [specStepEnd]
theorem specSE44 : specStepEnd 4 4 = 100 := by norm_num [specStepEnd]

theorem openedPercent14 : openedPercent 1 4 = 20 := by
  unfold openedPercent
  rw [stepStart14, stepEnd14, ppCast, openedA]
  decide
theorem openedPercent24 : openedPercent 2 4 = 45 := by
  unfold openedPercent
  rw [stepStart24, stepEnd24, ppCast, openedB]
  decide
theorem openedPercent34 : openedPercent 3 4 = 70 := by
  unfold openedPercent
  rw [stepStart34, stepEnd34, ppCast, openedC]
  decide
theorem openedPercent44 : openedPercent 4 4 = 95 := by
  unfold openedPercent
  rw [stepStart44, stepEnd44, ppCast, openedD]
  decide

theorem innerPercent140 : innerPercent 1 4 0 = 8 := by
  unfold innerPercent
  rw [stepStart14, stepEnd14, innerValA0, ppCast]
  decide
theorem innerPercent240 : innerPercent 2 4 0 = 33 := by
  unfold innerPercent
  rw [stepStart24, stepEnd24, innerValB0, ppCast]
  decide
theorem innerPercent340 : innerPercent 3 4 0 = 58 := by
  unfold innerPercent
  rw [stepStart34, stepEnd34, innerValC0, ppCast]
  decide

-- ### Helper lemmas: structure of the runner

theorem readFlag_snd_flag (e : Env) (s : St) : (readFlag e s).2.flag = (readFlag e s).1 := rfl

theorem readFlag_snd_events (e : Env) (s : St) : (readFlag e s).2.events = s.events := rfl

theorem emitAll_flag (L : List String) (s : St) : (emitAll L s).flag = s.flag := by
  induction L generalizing s with
  | nil => rfl
  | cons m L ih => simpa [emitAll, emit_log] using ih (emit_log m s)

theorem googlePart_events (e : Env) (i : ℕ) (u : String) (s : St) :
    ∃ l, (googlePart e i u s).events = s.events ++ l := by
  unfold googlePart
  dsimp only
  split
  · split
    · exact ⟨[], by simp [readFlag_snd_events]⟩
    · split
      · exact ⟨[Event.log "[ACTION] Typing into the Google search bar...",
               Event.log "[ERROR] Google typing failed: <exception>"],
          by simp [emit_log, readFlag_snd_events]⟩
      · exact ⟨[Event.log "[ACTION] Typing into the Google search bar...",
               Event.log "[DONE] Typed text without submitting."],
          by simp [emit_log, readFlag_snd_events]⟩
  · exact ⟨[], by simp⟩

theorem googlePart_flag_quiet (e : Env) (i : ℕ) (u : String) (s : St)
    (hq : ∀ k, e.cancelAt k = false) (hs : s.flag = false) :
    (googlePart e i u s).flag = false := by
  unfold googlePart readFlag
  dsimp only
  rw [hs, hq]
  simp only [Bool.or_false]
  split
  · simp only [if_false, Bool.false_eq_true]
    split <;> rfl
  · exact hs

theorem innerLoop_events (e : Env) (ss se : ℤ) (ts : List ℕ) (s : St) :
    ∃ l, (innerLoop e ss se ts s).events = s.events ++ l := by
  induction ts generalizing s with
  | nil => exact ⟨[], by simp [innerLoop]⟩
  | cons t ts ih =>
    rw [innerLoop]
    dsimp only
    split
    · exact ⟨[Event.log "[CANCEL] Stopping midway..."],
        by simp [emit_log, readFlag_snd_events]⟩
    · obtain ⟨l, hl⟩ := ih (emit_progress ((innerVal ss se t : ℤ) : ℚ)
        (emit_log ("[WAIT] Observing content... " ++ toString (t + 1) ++ "/3") (readFlag e s).2))
      refine ⟨[Event.log ("[WAIT] Observing content... " ++ toString (t + 1) ++ "/3"),
              Event.progress (progressPercent ((innerVal ss se t : ℤ) : ℚ))] ++ l, ?_⟩
      rw [hl]
      simp [emit_log, emit_progress, readFlag_snd_events]

theorem innerLoop_flag_quiet (e : Env) (ss se : ℤ) (ts : List ℕ) (s : St)
    (hq : ∀ k, e.cancelAt k = false) (hs : s.flag = false) :
    (innerLoop e ss se ts s).flag = false := by
  induction ts generalizing s with
  | nil => simpa [innerLoop]
  | cons t ts ih =>
    rw [innerLoop]
    dsimp only
    rw [show (readFlag e s).1 = false by simp [readFlag, hs, hq]]
    simp only [Bool.false_eq_true, if_false]
    exact ih _ (by simp [emit_log, emit_progress, readFlag_snd_flag, readFlag, hs, hq])

theorem innerLoop_cancel_log (e : Env) (ss se : ℤ) :
    ∀ (ts : List ℕ) (s : St), ts ≠ [] ∨ s.flag = false →
      (innerLoop e ss se ts s).flag = true →
      ∃ pre, (innerLoop e ss se ts s).events = s.events ++ pre ∧
        Event.log "[CANCEL] Stopping midway..." ∈ pre := by
  intro ts
  induction ts with
  | nil =>
    intro s hne hf
    rcases hne with h | h
    · exact absurd rfl h
    · rw [innerLoop] at hf
      rw [h] at hf
      exact absurd hf (by simp)
  | cons t ts ih =>
    intro s hne hf
    rw [innerLoop] at hf ⊢
    dsimp only at hf ⊢
    by_cases hr : (readFlag e s).1 = true
    · rw [if_pos hr]
      exact ⟨[Event.log "[CANCEL] Stopping midway..."],
        by simp [emit_log, readFlag_snd_events], by simp⟩
    · have hr' : (readFlag e s).1 = false := by simpa using hr
      rw [if_neg hr] at hf ⊢
      have hs' : (emit_progress ((innerVal ss se t : ℤ) : ℚ)
          (emit_log ("[WAIT] Observing content... " ++ toString (t + 1) ++ "/3")
            (readFlag e s).2)).flag = false := by
        simp [emit_progress, emit_log, readFlag_snd_flag, hr']
      obtain ⟨pre', h1, h2⟩ := ih _ (Or.inr hs') hf
      refine ⟨[Event.log ("[WAIT] Observing content... " ++ toString (t + 1) ++ "/3"),
              Event.progress (progressPercent ((innerVal ss se t : ℤ) : ℚ))] ++ pre', ?_,
        by simp [h2]⟩
      rw [h1]
      simp [emit_progress, emit_log, readFlag_snd_events]

theorem afterGoto_events (e : Env) (total i : ℕ) (u : String) (s : St) :
    ∃ l, (afterGoto e total i u s).events = s.events ++ l := by
  unfold afterGoto
  dsimp only
  obtain ⟨l2, hl2⟩ := innerLoop_events e (step_start i total) (step_end i total) [0, 1, 2]
    (googlePart e i u
      (emit_progress ((openedVal (step_start i total) (step_end i total) : ℤ) : ℚ)
        (emit_log ("[OPENED] " ++ u) s)))
  obtain ⟨l1, hl1⟩ := googlePart_events e i u
    (emit_progress ((openedVal (step_start i total) (step_end i total) : ℤ) : ℚ)
      (emit_log ("[OPENED] " ++ u) s))
  refine ⟨[Event.log ("[OPENED] " ++ u),
    Event.progress (progressPercent ((openedVal (step_start i total) (step_end i total) : ℤ) : ℚ))]
      ++ l1 ++ l2, ?_⟩
  rw [hl2, hl1]
  simp [emit_progress, emit_log]

theorem afterGoto_flag_quiet (e : Env) (total i : ℕ) (u : String) (s : St)
    (hq : ∀ k, e.cancelAt k = false) (hs : s.flag = false) :
    (afterGoto e total i u s).flag = false := by
  unfold afterGoto
  dsimp only
  exact innerLoop_flag_quiet _ _ _ _ _ hq
    (googlePart_flag_quiet _ _ _ _ hq (by simp [emit_progress, emit_log, hs]))

theorem stepLoop_quiet (e : Env) (total : ℕ) (hq : ∀ k, e.cancelAt k = false)
    (hg : ∀ i, e.gotoFail i = false) :
    ∀ (steps : List (ℕ × String × String)) (s : St), s.flag = false →
      ∃ s₂, stepLoop e total steps s = Except.ok s₂ ∧ s₂.flag = false ∧
        ∃ l, s₂.events = s.events ++ l := by
  intro steps
  induction steps with
  | nil =>
    intro s hs
    exact ⟨s, rfl, hs, [], by simp⟩
  | cons x rest ih =>
    obtain ⟨i, n, u⟩ := x
    intro s hs
    rw [stepLoop]
    simp only [readFlag, hs, hq, Bool.or_false, Bool.false_eq_true, if_false, hg]
    have hA : (afterGoto e total i u
        (emit_log ("[STEP " ++ toString i ++ "] Visiting " ++ n ++ " ...")
          ⟨false, s.tick + 1, s.events⟩)).flag = false :=
      afterGoto_flag_quiet _ _ _ _ _ hq rfl
    simp only [hA, hq, Bool.or_false, Bool.false_eq_true, if_false]
    obtain ⟨s₂, h1, h2, l, h3⟩ := ih ⟨false,
      (afterGoto e total i u
        (emit_log ("[STEP " ++ toString i ++ "] Visiting " ++ n ++ " ...")
          ⟨false, s.tick + 1, s.events⟩)).tick + 1,
      (afterGoto e total i u
        (emit_log ("[STEP " ++ toString i ++ "] Visiting " ++ n ++ " ...")
          ⟨false, s.tick + 1, s.events⟩)).events⟩ rfl
    refine ⟨s₂, h1, h2, ?_⟩
    obtain ⟨lA, hlA⟩ := afterGoto_events e total i u
      (emit_log ("[STEP " ++ toString i ++ "] Visiting " ++ n ++ " ...")
        ⟨false, s.tick + 1, s.events⟩)
    refine ⟨[Event.log ("[STEP " ++ toString i ++ "] Visiting " ++ n ++ " ...")] ++ lA ++ l, ?_⟩
    rw [h3]
    dsimp only
    rw [hlA]
    simp [emit_log]

theorem demoPost_flag (e : Env) (s : St) : (demoPost e s).flag = false := by
  unfold demoPost
  dsimp only
  split
  · rfl
  · rename_i h
    simp only [emit_log, emit_progress]
    rw [readFlag_snd_flag]
    simpa using h

theorem demoPost_quiet (e : Env) (s : St) (hq : ∀ k, e.cancelAt k = false)
    (hs : s.flag = false) :
    demoPost e s = ⟨false, s.tick + 1, s.events ++
      [Event.log "[CLEANUP] Closing browser window...", Event.progress 100,
       Event.log "[DONE] Demo sequence completed ✅"]⟩ := by
  unfold demoPost
  dsimp only
  simp only [readFlag, emit_log, emit_progress, hs, hq, Bool.or_false, Bool.false_eq_true,
    if_false, ppEval100]
  simp

theorem demo_ok_flag (e : Env) (s s₂ : St) (h : demo_sequence e s = Except.ok s₂) :
    s₂.flag = false := by
  unfold demo_sequence demoFrom at h
  cases hsl : stepLoop e filteredUrls.length (List.enumFrom 1 filteredUrls)
      (emit_log "[PLAYWRIGHT] Launching visible Chromium browser..." s) with
  | error s' =>
    rw [hsl] at h
    cases h
  | ok s' =>
    rw [hsl] at h
    cases h
    exact demoPost_flag e s'

theorem introLoop_abort (e : Env) :
    ∀ (L : List String) (s s₂ : St), introLoop e L s = (true, s₂) →
      s₂.flag = true ∧
      ∃ pre, s₂.events = s.events ++ pre ∧
        (∀ ev ∈ pre, ∃ m, ev = Event.log m ∧
          (m ∈ L ∨ m = "[CANCEL] User aborted before Playwright started.")) ∧
        Event.log "[CANCEL] User aborted before Playwright started." ∈ pre := by
  intro L
  induction L with
  | nil =>
    intro s s₂ h
    rw [introLoop] at h
    exact absurd (congrArg Prod.fst h) (by simp)
  | cons line rest ih =>
    intro s s₂ h
    rw [introLoop] at h
    by_cases hr : (readFlag e (emit_log line s)).1 = true
    · rw [if_pos hr] at h
      have hs₂ : s₂ = emit_log "[CANCEL] User aborted before Playwright started."
          (readFlag e (emit_log line s)).2 := (congrArg Prod.snd h).symm
      constructor
      · rw [hs₂]
        exact hr
      · refine ⟨[Event.log line, Event.log "[CANCEL] User aborted before Playwright started."],
          ?_, ?_, by simp⟩
        · rw [hs₂]
          simp [emit_log, readFlag_snd_events]
        · intro ev hev
          rcases List.mem_cons.1 hev with rfl | hev'
          · exact ⟨line, rfl, Or.inl (by simp)⟩
          · rcases List.mem_singleton.1 hev' with rfl
            exact ⟨"[CANCEL] User aborted before Playwright started.", rfl, Or.inr rfl⟩
    · rw [if_neg hr] at h
      obtain ⟨hf, pre', h1, h2, h3⟩ := ih (readFlag e (emit_log line s)).2 s₂ h
      refine ⟨hf, Event.log line :: pre', ?_, ?_, by simp [h3]⟩
      · rw [h1, readFlag_snd_events]
        simp [emit_log]
      · intro ev hev
        rcases List.mem_cons.1 hev with rfl | hev'
        · exact ⟨line, rfl, Or.inl (by simp)⟩
        · obtain ⟨m, hm1, hm2⟩ := h2 ev hev'
          exact ⟨m, hm1, hm2.imp (List.mem_cons_of_mem _) id⟩

-- ### C4: progress emission is clamped to [0,100] and truncated

/-- C4.  For every input percent (rational, so negative values, values
above 100 and fractional values included), `emit_progress` appends
exactly one progress event whose value is the input clamped to `[0,100]`
and then truncated to an integer, and that delivered value is always an
integer in `[0,100]`. -/
theorem c4_emit_progress_clamped (p : ℚ) (s : St) :
    emit_progress p s =
      { s with events := s.events ++ [Event.progress (progressPercent p)] } ∧
    progressPercent p = pyInt (max 0 (min 100 p)) ∧
    0 ≤ progressPercent p ∧ progressPercent p ≤ 100 :=
  ⟨rfl, rfl, progressPercent_nonneg p, progressPercent_le p⟩

-- ### C3: the address-safety predicate

/-- C3.  For every parser (the external `urlparse` collaborator) and every
candidate address, `_safe_url` returns `true` exactly when the address
parses successfully with scheme `http` or `https` and a non-empty host
component, and a parse exception yields `false` (fail-closed).  The
embedding of `_safe_url` is a total function into `Bool`, so on every
input, malformed ones included, it returns a boolean and never
propagates the parse failure. -/
theorem c3_safe_url_iff (parse : String → Except String ParseResult) (u : String) :
    (_safe_url parse u = true ↔
      ∃ p, parse u = Except.ok p ∧
        (p.scheme = "http" ∨ p.scheme = "https") ∧ p.netloc ≠ "") ∧
    (∀ msg, parse u = Except.error msg → _safe_url parse u = false) := by
  constructor
  · unfold _safe_url
    cases h : parse u with
    | ok p =>
      simp only [Bool.and_eq_true, Bool.or_eq_true, beq_iff_eq, Bool.not_eq_true',
        beq_eq_false_iff_ne, ne_eq]
      constructor
      · rintro ⟨hs, hn⟩
        exact ⟨p, rfl, hs, hn⟩
      · rintro ⟨q, hq, hs, hn⟩
        cases hq
        exact ⟨hs, hn⟩
    | error msg =>
      constructor
      · intro hft
        exact absurd hft (by simp)
      · rintro ⟨q, hq, -⟩
        cases hq
  · intro msg h
    unfold _safe_url
    rw [h]

/-- Witness for C3: a well-formed address is accepted, and an address
with mismatched IPv6 brackets makes the parser raise, which `_safe_url`
turns into rejection. -/
theorem c3_safe_url_iff_witness :
    _safe_url urlparseM "https://example.com" = true ∧
    urlparseM "http://[::1" = Except.error "Invalid IPv6 URL" ∧
    _safe_url urlparseM "http://[::1" = false :=
  ⟨(c3_safe_url_iff urlparseM "https://example.com").1.2
      ⟨⟨"https", "example.com"⟩, rfl, Or.inr rfl, by decide⟩,
    rfl,
    (c3_safe_url_iff urlparseM "http://[::1").2 "Invalid IPv6 URL" rfl⟩

-- ### C5: the fixed step list and the "opened" emissions

/-- C5.  All four fixed addresses pass the safety predicate, so the
post-filter `total` is 4; for each step `i` the "opened" progress
emission equals the spec's `clamp(step_end - 5, step_start, 95)` with
`step_start = floor((i-1)/total*100)` and `step_end = floor(i/total*100)`;
for `i = 2` these are 25 and 50 and the emission is 45; and no opened
emission is exactly 100 or below its step's start. -/
theorem c5_opened_emissions :
    urls0.all (fun nu => _safe_url urlparseM nu.2) = true ∧
    filteredUrls = urls0 ∧
    filteredUrls.length = 4 ∧
    (openedPercent 1 4 = clampSpec (specStepEnd 1 4 - 5) (specStepStart 1 4) 95 ∧
     openedPercent 2 4 = clampSpec (specStepEnd 2 4 - 5) (specStepStart 2 4) 95 ∧
     openedPercent 3 4 = clampSpec (specStepEnd 3 4 - 5) (specStepStart 3 4) 95 ∧
     openedPercent 4 4 = clampSpec (specStepEnd 4 4 - 5) (specStepStart 4 4) 95) ∧
    (specStepStart 2 4 = 25 ∧ specStepEnd 2 4 = 50 ∧ openedPercent 2 4 = 45) ∧
    (openedPercent 1 4 ≠ 100 ∧ openedPercent 2 4 ≠ 100 ∧
     openedPercent 3 4 ≠ 100 ∧ openedPercent 4 4 ≠ 100) ∧
    (specStepStart 1 4 ≤ openedPercent 1 4 ∧ specStepStart 2 4 ≤ openedPercent 2 4 ∧
     specStepStart 3 4 ≤ openedPercent 3 4 ∧ specStepStart 4 4 ≤ openedPercent 4 4) := by
  refine ⟨by decide, filteredUrls_eq, by decide, ⟨?_, ?_, ?_, ?_⟩, ⟨specSS24, specSE24,
    openedPercent24⟩, ?_, ?_⟩
  · rw [openedPercent14, specSS14, specSE14]
    decide
  · rw [openedPercent24, specSS24, specSE24]
    decide
  · rw [openedPercent34, specSS34, specSE34]
    decide
  · rw [openedPercent44, specSS44, specSE44]
    decide
  · rw [openedPercent14, openedPercent24, openedPercent34, openedPercent44]
    decide
  · rw [openedPercent14, openedPercent24, openedPercent34, openedPercent44,
      specSS14, specSS24, specSS34, specSS44]
    decide

-- ### C10: the progress sequence of the uncancelled run is not monotone

set_option maxHeartbeats 4000000 in
set_option maxRecDepth 4096 in
theorem quietTrace_eq :
    quietTrace = [20, 8, 16, 25, 45, 33, 41, 50, 70, 58, 66, 75, 95, 83, 91, 100, 100] := by
  simp +decide [quietTrace, demo_sequence, demoFrom, stepLoop, afterGoto, googlePart, innerLoop,
    demoPost, readFlag, emit_log, emit_progress, clearFlag, envQuiet, St.init,
    filteredUrls_eq, urls0, List.enumFrom,
    stepStart14, stepStart24, stepStart34, stepStart44,
    stepEnd14, stepEnd24, stepEnd34, stepEnd44,
    innerValA0, innerValA1, innerValA2, innerValB0, innerValB1, innerValB2,
    innerValC0, innerValC1, innerValC2, innerValD0, innerValD1, innerValD2,
    openedA, openedB, openedC, openedD, ppEval0, ppEval100, ppCast, progressOf]

/-- C10.  In the uncancelled, failure-free run over the fixed 4-entry
list, the emitted progress sequence is exactly
`[20, 8, 16, 25, 45, 33, 41, 50, 70, 58, 66, 75, 95, 83, 91, 100, 100]`,
which is not monotonically non-decreasing: for each step `i` in
`{1, 2, 3}` the "opened" emission is `25*i - 5` and the first inner-loop
emission right after it is `25*(i-1) + 8`, strictly smaller (step 1
emits 20 and then 8). -/
theorem c10_progress_not_monotone :
    quietTrace = [20, 8, 16, 25, 45, 33, 41, 50, 70, 58, 66, 75, 95, 83, 91, 100, 100] ∧
    ¬ List.Sorted (· ≤ ·) quietTrace ∧
    (openedPercent 1 4 = 25 * 1 - 5 ∧ innerPercent 1 4 0 = 25 * 0 + 8 ∧
      innerPercent 1 4 0 < openedPercent 1 4) ∧
    (openedPercent 2 4 = 25 * 2 - 5 ∧ innerPercent 2 4 0 = 25 * 1 + 8 ∧
      innerPercent 2 4 0 < openedPercent 2 4) ∧
    (openedPercent 3 4 = 25 * 3 - 5 ∧ innerPercent 3 4 0 = 25 * 2 + 8 ∧
      innerPercent 3 4 0 < openedPercent 3 4) := by
  refine ⟨quietTrace_eq, ?_, ⟨?_, ?_, ?_⟩, ⟨?_, ?_, ?_⟩, ⟨?_, ?_, ?_⟩⟩
  · rw [quietTrace_eq]
    intro h
    have h8 := (List.sorted_cons.mp h).1 8 (by simp)
    exact absurd h8 (by decide)
  · rw [openedPercent14]
    decide
  · rw [innerPercent140]
    decide
  · rw [innerPercent140, openedPercent14]
    decide
  · rw [openedPercent24]
    decide
  · rw [innerPercent240]
    decide
  · rw [innerPercent240, openedPercent24]
    decide
  · rw [openedPercent34]
    decide
  · rw [innerPercent340]
    decide
  · rw [innerPercent340, openedPercent34]
    decide

-- ### C9: the inner-loop interpolation formula

/-- C9.  For every step `i` of `total` (`1 ≤ i ≤ total`) and every
inner-loop iteration `t < 3`, the percent delivered by the inner
observation-loop emission equals
`step_start + floor((step_end - step_start) * (t+1)/3)`, where
`step_start = floor((i-1)/total*100)` and `step_end = floor(i/total*100)`
are the step's integer progress bounds. -/
theorem c9_inner_progress_formula (i total t : ℕ)
    (h1 : 1 ≤ i) (h2 : i ≤ total) (h3 : t < 3) :
    innerPercent i total t =
      specStepStart i total +
        ⌊((specStepEnd i total - specStepStart i total : ℤ) : ℚ) * (((t : ℚ) + 1) / 3)⌋ := by
  have htot : (0 : ℚ) < (total : ℚ) := by
    have h0 : 0 < total := Nat.lt_of_lt_of_le h1 h2
    exact_mod_cast h0
  have hi1 : (1 : ℚ) ≤ (i : ℚ) := by exact_mod_cast h1
  have hit : (i : ℚ) ≤ (total : ℚ) := by exact_mod_cast h2
  have hssarg : (0 : ℚ) ≤ (((i : ℚ) - 1) / (total : ℚ)) * 100 :=
    mul_nonneg (div_nonneg (by linarith) htot.le) (by norm_num)
  have hsearg : (0 : ℚ) ≤ ((i : ℚ) / (total : ℚ)) * 100 :=
    mul_nonneg (div_nonneg (by linarith) htot.le) (by norm_num)
  have hss : step_start i total = specStepStart i total := by
    unfold step_start specStepStart
    exact pyInt_of_nonneg hssarg
  have hse : step_end i total = specStepEnd i total := by
    unfold step_end specStepEnd
    exact pyInt_of_nonneg hsearg
  have hss0 : 0 ≤ specStepStart i total := by
    unfold specStepStart
    exact Int.le_floor.2 (by exact_mod_cast hssarg)
  have hse100 : specStepEnd i total ≤ 100 := by
    unfold specStepEnd
    have hd1 : (i : ℚ) / (total : ℚ) ≤ 1 := (div_le_one htot).2 hit
    have harg : ((i : ℚ) / (total : ℚ)) * 100 ≤ 100 := by nlinarith
    calc ⌊((i : ℚ) / (total : ℚ)) * 100⌋ ≤ ⌊(100 : ℚ)⌋ := Int.floor_le_floor harg
      _ = 100 := by norm_num
  have hmono : specStepStart i total ≤ specStepEnd i total := by
    unfold specStepStart specStepEnd
    apply Int.floor_le_floor
    have hdd : ((i : ℚ) - 1) / (total : ℚ) ≤ (i : ℚ) / (total : ℚ) :=
      (div_le_div_iff_of_pos_right htot).2 (by linarith)
    nlinarith
  set ss := specStepStart i total with hssdef
  set se := specStepEnd i total with hsedef
  have hd0 : (0 : ℤ) ≤ se - ss := sub_nonneg.2 hmono
  have hfrac0 : (0 : ℚ) ≤ ((t : ℚ) + 1) / 3 := by positivity
  have hfrac1 : ((t : ℚ) + 1) / 3 ≤ 1 := by
    rw [div_le_one (by norm_num : (0 : ℚ) < 3)]
    have ht2 : (t : ℚ) ≤ 2 := by exact_mod_cast Nat.lt_succ_iff.mp h3
    linarith
  have hprod0 : (0 : ℚ) ≤ ((se - ss : ℤ) : ℚ) * (((t : ℚ) + 1) / 3) :=
    mul_nonneg (by exact_mod_cast hd0) hfrac0
  have hF0 : 0 ≤ ⌊((se - ss : ℤ) : ℚ) * (((t : ℚ) + 1) / 3)⌋ :=
    Int.le_floor.2 (by exact_mod_cast hprod0)
  have hFd : ⌊((se - ss : ℤ) : ℚ) * (((t : ℚ) + 1) / 3)⌋ ≤ se - ss := by
    have hcast : (0 : ℚ) ≤ ((se - ss : ℤ) : ℚ) := by exact_mod_cast hd0
    have hle : ((se - ss : ℤ) : ℚ) * (((t : ℚ) + 1) / 3) ≤ ((se - ss : ℤ) : ℚ) := by
      nlinarith
    calc ⌊((se - ss : ℤ) : ℚ) * (((t : ℚ) + 1) / 3)⌋ ≤ ⌊((se - ss : ℤ) : ℚ)⌋ :=
        Int.floor_le_floor hle
      _ = se - ss := Int.floor_intCast _
  have hIV : innerVal (step_start i total) (step_end i total) t =
      ss + ⌊((se - ss : ℤ) : ℚ) * (((t : ℚ) + 1) / 3)⌋ := by
    unfold innerVal
    rw [hss, hse]
    have hsub : ((se : ℚ) - (ss : ℚ)) = ((se - ss : ℤ) : ℚ) := by push_cast; ring
    rw [hsub, pyInt_of_nonneg hprod0]
  unfold innerPercent
  rw [hIV, ppCast]
  have hub : ss + ⌊((se - ss : ℤ) : ℚ) * (((t : ℚ) + 1) / 3)⌋ ≤ 100 := by omega
  have hlb : 0 ≤ ss + ⌊((se - ss : ℤ) : ℚ) * (((t : ℚ) + 1) / 3)⌋ := by omega
  rw [min_eq_right hub, max_eq_right hlb]

/-- Witness for C9 at step 2 of 4, iteration 0: the emission is
`25 + floor(25 * 1/3) = 33`. -/
theorem c9_inner_progress_formula_witness :
    ((1 : ℕ) ≤ 2 ∧ (2 : ℕ) ≤ 4 ∧ (0 : ℕ) < 3) ∧
    innerPercent 2 4 0 =
      specStepStart 2 4 +
        ⌊((specStepEnd 2 4 - specStepStart 2 4 : ℤ) : ℚ) * ((((0 : ℕ) : ℚ) + 1) / 3)⌋ :=
  ⟨⟨by decide, by decide, by decide⟩,
    c9_inner_progress_formula 2 4 0 (by decide) (by decide) (by decide)⟩

-- ### C6: a completed, uncancelled run ends with progress 100

/-- C6.  For any behaviour of the outside world in which the cancellation
flag is never set and no navigation fails, and any start state with the
flag clear, the demo sequence completes, the flag stays clear, and the
run's trace ends with the cleanup log, a progress emission of exactly
100, and the completion log — so the final progress emission of the run
is exactly 100, emitted after cleanup and before the completion log. -/
theorem c6_completed_run_emits_100 (e : Env) (s : St)
    (hq : ∀ k, e.cancelAt k = false) (hg : ∀ i, e.gotoFail i = false) (hs : s.flag = false) :
    ∃ s₂ mid, demo_sequence e s = Except.ok s₂ ∧ s₂.flag = false ∧
      s₂.events = s.events ++ mid ++
        [Event.log "[CLEANUP] Closing browser window...", Event.progress 100,
         Event.log "[DONE] Demo sequence completed ✅"] ∧
      (progressOf s₂.events).getLast? = some 100 := by
  obtain ⟨s₁, h1, h2, l, h3⟩ := stepLoop_quiet e filteredUrls.length hq hg
    (List.enumFrom 1 filteredUrls)
    (emit_log "[PLAYWRIGHT] Launching visible Chromium browser..." s)
    (by simpa [emit_log] using hs)
  refine ⟨demoPost e s₁,
    [Event.log "[PLAYWRIGHT] Launching visible Chromium browser..."] ++ l, ?_,
    demoPost_flag e s₁, ?_, ?_⟩
  · unfold demo_sequence demoFrom
    rw [h1]
  · rw [demoPost_quiet e s₁ hq h2]
    dsimp only
    rw [h3]
    simp [emit_log]
  · rw [demoPost_quiet e s₁ hq h2]
    dsimp only
    simp [progressOf, List.filterMap_append, List.getLast?_concat]

/-- Witness for C6: the quiet world, from process start. -/
theorem c6_completed_run_emits_100_witness :
    (∀ k, envQuiet.cancelAt k = false) ∧ (∀ i, envQuiet.gotoFail i = false) ∧
    St.init.flag = false ∧
    (∃ s₂ mid, demo_sequence envQuiet St.init = Except.ok s₂ ∧ s₂.flag = false ∧
      s₂.events = St.init.events ++ mid ++
        [Event.log "[CLEANUP] Closing browser window...", Event.progress 100,
         Event.log "[DONE] Demo sequence completed ✅"] ∧
      (progressOf s₂.events).getLast? = some 100) :=
  ⟨fun _ => rfl, fun _ => rfl, rfl,
    c6_completed_run_emits_100 envQuiet St.init (fun _ => rfl) (fun _ => rfl) rfl⟩

-- ### Helper lemmas: cancelled unwinding

theorem demoPost_cancelled (e : Env) (s : St) (hs : s.flag = true) :
    demoPost e s = ⟨false, s.tick + 1, s.events ++
      [Event.log "[CLEANUP] Closing browser window...",
       Event.log "[SYS] Playwright run cancelled.", Event.progress 0]⟩ := by
  unfold demoPost
  simp [readFlag, emit_log, emit_progress, clearFlag, hs, ppEval0]

theorem stepLoop_cancel_head (e : Env) (total i : ℕ) (n u : String)
    (rest : List (ℕ × String × String)) (s : St) (h : (readFlag e s).1 = true) :
    stepLoop e total ((i, n, u) :: rest) s =
      Except.ok ⟨true, s.tick + 1,
        s.events ++ [Event.log "[CANCEL] Run aborted by user before visiting next site."]⟩ := by
  have h'' : s.flag = true ∨ e.cancelAt s.tick = true := by
    have hc := h
    simp [readFlag] at hc
    exact hc
  simp only [stepLoop]
  rw [if_pos h]
  simp [emit_log, readFlag]
  exact h''

-- ### C1: cancellation during step i unwinds the run

/-- C1.  If the cancellation flag is observed set while the runner is at
step `i` — at the outer-loop checkpoint (first conjunct) or inside the
inner observation loop (second conjunct) — then the runner emits a
cancellation log line, then the cleanup log line, then the terminal
cancellation log, progress 0, and clears the flag; the result is
independent of the remaining steps, so step `i+1` is never executed: the
run's whole remaining trace is exactly the listed suffix. -/
theorem c1_cancel_during_step_unwinds :
    (∀ (e : Env) (total i : ℕ) (n u : String) (rest : List (ℕ × String × String)) (s : St),
      (readFlag e s).1 = true →
        demoFrom e total ((i, n, u) :: rest) s =
          Except.ok ⟨false, s.tick + 2, s.events ++
            [Event.log "[CANCEL] Run aborted by user before visiting next site.",
             Event.log "[CLEANUP] Closing browser window...",
             Event.log "[SYS] Playwright run cancelled.",
             Event.progress 0]⟩ ∧
        demoFrom e total ((i, n, u) :: rest) s = demoFrom e total [(i, n, u)] s) ∧
    (∀ (e : Env) (total i : ℕ) (n u : String) (rest : List (ℕ × String × String)) (s sA : St),
      (readFlag e s).1 = false →
      e.gotoFail i = false →
      afterGoto e total i u
        (emit_log ("[STEP " ++ toString i ++ "] Visiting " ++ n ++ " ...") (readFlag e s).2) = sA →
      sA.flag = true →
        (∃ pre, sA.events =
          (emit_log ("[STEP " ++ toString i ++ "] Visiting " ++ n ++ " ...")
            (readFlag e s).2).events ++ pre ∧
          Event.log "[CANCEL] Stopping midway..." ∈ pre) ∧
        demoFrom e total ((i, n, u) :: rest) s =
          Except.ok ⟨false, sA.tick + 2, sA.events ++
            [Event.log "[CLEANUP] Closing browser window...",
             Event.log "[SYS] Playwright run cancelled.",
             Event.progress 0]⟩ ∧
        demoFrom e total ((i, n, u) :: rest) s = demoFrom e total [(i, n, u)] s) := by
  constructor
  · intro e total i n u rest s h
    have hd : ∀ (r : List (ℕ × String × String)), demoFrom e total ((i, n, u) :: r) s =
        Except.ok ⟨false, s.tick + 2, s.events ++
          [Event.log "[CANCEL] Run aborted by user before visiting next site.",
           Event.log "[CLEANUP] Closing browser window...",
           Event.log "[SYS] Playwright run cancelled.",
           Event.progress 0]⟩ := by
      intro r
      simp only [demoFrom, stepLoop_cancel_head e total i n u r s h]
      rw [demoPost_cancelled e ⟨true, s.tick + 1,
        s.events ++ [Event.log "[CANCEL] Run aborted by user before visiting next site."]⟩ rfl]
      simp
    exact ⟨hd rest, (hd rest).trans (hd []).symm⟩
  · intro e total i n u rest s sA h1 h2 hA hflag
    constructor
    · subst hA
      replace hflag : (innerLoop e (step_start i total) (step_end i total) [0, 1, 2]
          (googlePart e i u
            (emit_progress ((openedVal (step_start i total) (step_end i total) : ℤ) : ℚ)
              (emit_log ("[OPENED] " ++ u)
                (emit_log ("[STEP " ++ toString i ++ "] Visiting " ++ n ++ " ...")
                  (readFlag e s).2))))).flag = true := hflag
      obtain ⟨pre1, hpre1, hmem⟩ := innerLoop_cancel_log e (step_start i total)
        (step_end i total) [0, 1, 2] _ (Or.inl (by simp)) hflag
      obtain ⟨pre0, hpre0⟩ := googlePart_events e i u
        (emit_progress ((openedVal (step_start i total) (step_end i total) : ℤ) : ℚ)
          (emit_log ("[OPENED] " ++ u)
            (emit_log ("[STEP " ++ toString i ++ "] Visiting " ++ n ++ " ...")
              (readFlag e s).2)))
      refine ⟨[Event.log ("[OPENED] " ++ u),
        Event.progress (progressPercent
          ((openedVal (step_start i total) (step_end i total) : ℤ) : ℚ))] ++ pre0 ++ pre1,
        ?_, by simp [hmem]⟩
      show (afterGoto e total i u _).events = _
      unfold afterGoto
      dsimp only
      rw [hpre1, hpre0]
      simp [emit_progress, emit_log]
    · have hd : ∀ (r : List (ℕ × String × String)), demoFrom e total ((i, n, u) :: r) s =
          Except.ok ⟨false, sA.tick + 2, sA.events ++
            [Event.log "[CLEANUP] Closing browser window...",
             Event.log "[SYS] Playwright run cancelled.",
             Event.progress 0]⟩ := by
        intro r
        simp only [demoFrom, stepLoop]
        rw [if_neg (by simp [h1])]
        rw [if_neg (by simp [h2])]
        rw [hA]
        rw [if_pos (show (readFlag e sA).1 = true by simp [readFlag, hflag])]
        dsimp only
        rw [demoPost_cancelled e (readFlag e sA).2
          (by simp [readFlag_snd_flag, readFlag, hflag])]
        simp [readFlag]
      exact ⟨hd rest, (hd rest).trans (hd []).symm⟩

theorem preclear_events (e : Env) (s : St) : (preclear e s).events = s.events := by
  unfold preclear readFlag clearFlag
  dsimp only
  split <;> rfl

-- ### C2: cancellation during the boot sequence

/-- C2.  If the cancellation flag is observed set during the boot log
loop, the wrapper emits the abort log and returns: the run's appended
events are only boot log lines plus the abort log — so no step of the
step sequence executes, no progress is emitted, and neither the cleanup
log nor any completion log is emitted. -/
theorem c2_boot_abort (e : Env) (s s₂ : St)
    (h : introLoop e introLines (preclear e s) = (true, s₂)) :
    dummy_log_sequence e s = Except.ok s₂ ∧
    ∃ pre, s₂.events = s.events ++ pre ∧
      (∀ ev ∈ pre, ∃ m, ev = Event.log m ∧
        (m ∈ introLines ∨ m = "[CANCEL] User aborted before Playwright started.")) ∧
      Event.log "[CANCEL] User aborted before Playwright started." ∈ pre ∧
      Event.log "[CLEANUP] Closing browser window..." ∉ pre ∧
      Event.log "[DONE] Demo sequence completed ✅" ∉ pre ∧
      Event.log "[OK] Demo sequence complete." ∉ pre ∧
      (∀ p : ℤ, Event.progress p ∉ pre) ∧
      (∀ m : String, Event.log m ∈ pre → listHasSub "] Visiting ".data m.data = false) := by
  obtain ⟨hf, pre, h1, h2, h3⟩ := introLoop_abort e introLines (preclear e s) s₂ h
  constructor
  · unfold dummy_log_sequence
    dsimp only
    rw [h]
  · refine ⟨pre, ?_, h2, h3, ?_, ?_, ?_, ?_, ?_⟩
    · rw [h1, preclear_events]
    · intro hmem
      obtain ⟨m, hm, hcase⟩ := h2 _ hmem
      injection hm with hme
      subst hme
      exact absurd hcase (by decide)
    · intro hmem
      obtain ⟨m, hm, hcase⟩ := h2 _ hmem
      injection hm with hme
      subst hme
      exact absurd hcase (by decide)
    · intro hmem
      obtain ⟨m, hm, hcase⟩ := h2 _ hmem
      injection hm with hme
      subst hme
      exact absurd hcase (by decide)
    · intro p hmem
      obtain ⟨m, hm, -⟩ := h2 _ hmem
      simp at hm
    · intro m hmem
      obtain ⟨m', hm, hcase⟩ := h2 _ hmem
      injection hm with hme
      subst hme
      rcases hcase with hin | rfl
      · simp only [introLines, List.mem_cons, List.mem_singleton] at hin
        rcases hin with rfl | rfl | rfl | rfl | h0
        · decide
        · decide
        · decide
        · decide
        · simp at h0
      · decide

/-- Witness for C2: a cancel request pending from the start aborts the
boot loop after its first line. -/
theorem c2_boot_abort_witness :
    introLoop envCancelAll introLines (preclear envCancelAll St.init) =
      (true, ⟨true, 2,
        [Event.log "[INFO] Initializing dummy token logger...",
         Event.log "[CANCEL] User aborted before Playwright started."]⟩) ∧
    dummy_log_sequence envCancelAll St.init =
      Except.ok ⟨true, 2,
        [Event.log "[INFO] Initializing dummy token logger...",
         Event.log "[CANCEL] User aborted before Playwright started."]⟩ :=
  ⟨rfl, (c2_boot_abort envCancelAll St.init _ rfl).1⟩

-- ### C7 (corrected): the flag lifecycle

/-- C7 counterexample: with a cancel request pending at every read, the
run aborts during the boot sequence and terminates with the cancellation
flag still set — refuting "every run (including one aborted during the
boot sequence) terminates with the flag clear". -/
theorem c7_flag_lifecycle_counterexample :
    dummy_log_sequence envCancelAll St.init =
      Except.ok ⟨true, 2,
        [Event.log "[INFO] Initializing dummy token logger...",
         Event.log "[CANCEL] User aborted before Playwright started."]⟩ ∧
    (⟨true, 2,
        [Event.log "[INFO] Initializing dummy token logger...",
         Event.log "[CANCEL] User aborted before Playwright started."]⟩ : St).flag = true :=
  ⟨rfl, rfl⟩

/-- C7 (amended).  The runner clears the flag at the start of every run,
and the cancelled terminal handling of the step phase always leaves the
flag clear, so a run that reaches the step phase terminates with the
flag clear (assuming no concurrent set after the run's last checkpoint);
but a run aborted during the boot sequence returns with the flag still
set (it is only cleared at the start of the next run). -/
theorem c7_flag_lifecycle_amended :
    (∀ (e : Env) (s : St), (preclear e s).flag = false) ∧
    (∀ (e : Env) (s : St), (demoPost e s).flag = false) ∧
    (∀ (e : Env) (s s₂ : St), introLoop e introLines (preclear e s) = (true, s₂) →
      dummy_log_sequence e s = Except.ok s₂ ∧ s₂.flag = true) ∧
    (∀ (e : Env) (s s₁ s₂ : St),
      introLoop e introLines (preclear e s) = (false, s₁) →
      demo_sequence e s₁ = Except.ok s₂ →
      e.cancelAt s₂.tick = false →
      ∃ s₃, dummy_log_sequence e s = Except.ok s₃ ∧ s₃.flag = false) := by
  refine ⟨?_, demoPost_flag, ?_, ?_⟩
  · intro e s
    unfold preclear readFlag clearFlag
    dsimp only
    split
    · rfl
    · next hcond => simpa using hcond
  · intro e s s₂ h
    refine ⟨?_, (introLoop_abort e introLines (preclear e s) s₂ h).1⟩
    unfold dummy_log_sequence
    dsimp only
    rw [h]
  · intro e s s₁ s₂ h1 h2 h3
    have hf : s₂.flag = false := demo_ok_flag e s₁ s₂ h2
    unfold dummy_log_sequence
    dsimp only
    rw [h1]
    dsimp only
    rw [h2]
    dsimp only
    rw [if_neg (by simp [readFlag, hf, h3])]
    exact ⟨emitAll outroLines (readFlag e s₂).2, rfl,
      by rw [emitAll_flag, readFlag_snd_flag]; simp [readFlag, hf, h3]⟩

/-- Witness for C7: the boot-abort case at a concrete input, and the
completed-run case at a concrete input. -/
theorem c7_flag_lifecycle_amended_witness :
    (preclear envCancelAll St.init).flag = false ∧
    (demoPost envQuiet St.init).flag = false ∧
    (introLoop envCancelAll introLines (preclear envCancelAll St.init) =
      (true, ⟨true, 2,
        [Event.log "[INFO] Initializing dummy token logger...",
         Event.log "[CANCEL] User aborted before Playwright started."]⟩) ∧
      (dummy_log_sequence envCancelAll St.init =
        Except.ok ⟨true, 2,
          [Event.log "[INFO] Initializing dummy token logger...",
           Event.log "[CANCEL] User aborted before Playwright started."]⟩ ∧
       (⟨true, 2,
          [Event.log "[INFO] Initializing dummy token logger...",
           Event.log "[CANCEL] User aborted before Playwright started."]⟩ : St).flag = true)) ∧
    (∃ s₃, dummy_log_sequence envQuiet St.init = Except.ok s₃ ∧ s₃.flag = false) := by
  refine ⟨c7_flag_lifecycle_amended.1 envCancelAll St.init,
    c7_flag_lifecycle_amended.2.1 envQuiet St.init,
    ⟨rfl, c7_flag_lifecycle_amended.2.2.1 envCancelAll St.init _ rfl⟩, ?_⟩
  have hintro : introLoop envQuiet introLines (preclear envQuiet St.init) =
      (false, ⟨false, 5,
        [Event.log "[INFO] Initializing dummy token logger...",
         Event.log "[BOOT] Loading environment variables...",
         Event.log "[SYS] Connection established.",
         Event.log "[OK] Starting Playwright page demo..."]⟩) := rfl
  obtain ⟨s₁, h1, h2, l, h3⟩ := stepLoop_quiet envQuiet filteredUrls.length
    (fun _ => rfl) (fun _ => rfl) (List.enumFrom 1 filteredUrls)
    (emit_log "[PLAYWRIGHT] Launching visible Chromium browser..." ⟨false, 5,
        [Event.log "[INFO] Initializing dummy token logger...",
         Event.log "[BOOT] Loading environment variables...",
         Event.log "[SYS] Connection established.",
         Event.log "[OK] Starting Playwright page demo..."]⟩) rfl
  have hdemo : demo_sequence envQuiet ⟨false, 5,
      [Event.log "[INFO] Initializing dummy token logger...",
       Event.log "[BOOT] Loading environment variables...",
       Event.log "[SYS] Connection established.",
       Event.log "[OK] Starting Playwright page demo..."]⟩ =
      Except.ok (demoPost envQuiet s₁) := by
    unfold demo_sequence demoFrom
    rw [h1]
  exact c7_flag_lifecycle_amended.2.2.2 envQuiet St.init _ _ hintro hdemo rfl

-- ### C8: a navigation failure is uncaught

/-- C8.  If `page.goto` raises at a step that was reached with the
checkpoint observing the flag clear, the exception is not caught
anywhere: the step loop stops at the raise point having appended only
the "visiting" log line — no progress 0, no cleanup log, no flag clear —
and the error propagates unchanged through `demoFrom` (skipping cleanup
and terminal handling), through `demo_sequence`, and through
`dummy_log_sequence`; no event other than log lines is emitted at the
failure, and no distinguished error event exists in the event type. -/
theorem c8_goto_exception_uncaught :
    (∀ (e : Env) (total i : ℕ) (n u : String) (rest : List (ℕ × String × String)) (s : St),
      (readFlag e s).1 = false →
      e.gotoFail i = true →
        stepLoop e total ((i, n, u) :: rest) s =
          Except.error ⟨false, s.tick + 1,
            s.events ++ [Event.log ("[STEP " ++ toString i ++ "] Visiting " ++ n ++ " ...")]⟩) ∧
    (∀ (e : Env) (total : ℕ) (steps : List (ℕ × String × String)) (s s' : St),
      stepLoop e total steps s = Except.error s' →
        demoFrom e total steps s = Except.error s') ∧
    (∀ (e : Env) (s s' : St),
      stepLoop e filteredUrls.length (List.enumFrom 1 filteredUrls)
          (emit_log "[PLAYWRIGHT] Launching visible Chromium browser..." s) = Except.error s' →
        demo_sequence e s = Except.error s') ∧
    (∀ (e : Env) (s₀ s₁ s' : St),
      introLoop e introLines (preclear e s₀) = (false, s₁) →
      demo_sequence e s₁ = Except.error s' →
        dummy_log_sequence e s₀ = Except.error s') := by
  refine ⟨?_, ?_, ?_, ?_⟩
  · intro e total i n u rest s h1 h2
    have hc : s.flag = false ∧ e.cancelAt s.tick = false := by
      have := h1
      simpa [readFlag] using this
    simp only [stepLoop]
    rw [if_neg (by simp [h1])]
    rw [if_pos h2]
    simp [emit_log, readFlag, hc.1, hc.2]
  · intro e total steps s s' h
    unfold demoFrom
    rw [h]
  · intro e s s' h
    unfold demo_sequence demoFrom
    rw [h]
  · intro e s₀ s₁ s' h1 h2
    unfold dummy_log_sequence
    dsimp only
    rw [h1]
    dsimp only
    rw [h2]

/-- Witness for C8: a world whose `goto` always raises aborts the run at
step 1 with only the visiting log appended, and the error propagates to
the wrapper. -/
theorem c8_goto_exception_uncaught_witness :
    ((readFlag envGotoBoom St.init).1 = false ∧ envGotoBoom.gotoFail 1 = true ∧
      stepLoop envGotoBoom 4 [(1, "Example Domain", "https://example.com")] St.init =
        Except.error ⟨false, 1, [Event.log "[STEP 1] Visiting Example Domain ..."]⟩) ∧
    dummy_log_sequence envGotoBoom St.init =
      Except.error ⟨false, 6,
        [Event.log "[INFO] Initializing dummy token logger...",
         Event.log "[BOOT] Loading environment variables...",
         Event.log "[SYS] Connection established.",
         Event.log "[OK] Starting Playwright page demo...",
         Event.log "[PLAYWRIGHT] Launching visible Chromium browser...",
         Event.log "[STEP 1] Visiting Example Domain ..."]⟩ := by
  constructor
  · exact ⟨rfl, rfl, c8_goto_exception_uncaught.1 envGotoBoom 4 1 "Example Domain"
      "https://example.com" [] St.init rfl rfl⟩
  · exact c8_goto_exception_uncaught.2.2.2 envGotoBoom St.init
      ⟨false, 5,
        [Event.log "[INFO] Initializing dummy token logger...",
         Event.log "[BOOT] Loading environment variables...",
         Event.log "[SYS] Connection established.",
         Event.log "[OK] Starting Playwright page demo..."]⟩ _ rfl rfl

/-- Witness for C1: a cancel pending at the very first checkpoint (outer
case), and a cancel arriving after the first checkpoint, observed at the
first inner-loop iteration of step 1 (inner case). -/
theorem c1_cancel_during_step_unwinds_witness :
    ((readFlag envCancelAll St.init).1 = true ∧
      (demoFrom envCancelAll 4
          [(1, "Example Domain", "https://example.com"),
           (2, "Python.org", "https://www.python.org")] St.init =
        Except.ok ⟨false, 2,
          [Event.log "[CANCEL] Run aborted by user before visiting next site.",
           Event.log "[CLEANUP] Closing browser window...",
           Event.log "[SYS] Playwright run cancelled.",
           Event.progress 0]⟩ ∧
       demoFrom envCancelAll 4
          [(1, "Example Domain", "https://example.com"),
           (2, "Python.org", "https://www.python.org")] St.init =
         demoFrom envCancelAll 4 [(1, "Example Domain", "https://example.com")] St.init)) ∧
    ((readFlag envCancelLate St.init).1 = false ∧
      envCancelLate.gotoFail 1 = false ∧
      afterGoto envCancelLate 4 1 "https://example.com"
          (emit_log "[STEP 1] Visiting Example Domain ..." (readFlag envCancelLate St.init).2) =
        ⟨true, 2,
          [Event.log "[STEP 1] Visiting Example Domain ...",
           Event.log "[OPENED] https://example.com",
           Event.progress 20,
           Event.log "[CANCEL] Stopping midway..."]⟩ ∧
      ((∃ pre, (⟨true, 2,
          [Event.log "[STEP 1] Visiting Example Domain ...",
           Event.log "[OPENED] https://example.com",
           Event.progress 20,
           Event.log "[CANCEL] Stopping midway..."]⟩ : St).events =
          (emit_log "[STEP 1] Visiting Example Domain ..."
            (readFlag envCancelLate St.init).2).events ++ pre ∧
          Event.log "[CANCEL] Stopping midway..." ∈ pre) ∧
       demoFrom envCancelLate 4 [(1, "Example Domain", "https://example.com")] St.init =
         Except.ok ⟨false, 4,
          [Event.log "[STEP 1] Visiting Example Domain ...",
           Event.log "[OPENED] https://example.com",
           Event.progress 20,
           Event.log "[CANCEL] Stopping midway...",
           Event.log "[CLEANUP] Closing browser window...",
           Event.log "[SYS] Playwright run cancelled.",
           Event.progress 0]⟩ ∧
       demoFrom envCancelLate 4 [(1, "Example Domain", "https://example.com")] St.init =
         demoFrom envCancelLate 4 [(1, "Example Domain", "https://example.com")] St.init)) := by
  constructor
  · exact ⟨rfl, c1_cancel_during_step_unwinds.1 envCancelAll 4 1 "Example Domain"
      "https://example.com" [(2, "Python.org", "https://www.python.org")] St.init rfl⟩
  · have hA : afterGoto envCancelLate 4 1 "https://example.com"
        (emit_log "[STEP 1] Visiting Example Domain ..." (readFlag envCancelLate St.init).2) =
        ⟨true, 2,
          [Event.log "[STEP 1] Visiting Example Domain ...",
           Event.log "[OPENED] https://example.com",
           Event.progress 20,
           Event.log "[CANCEL] Stopping midway..."]⟩ := by
      simp +decide [afterGoto, googlePart, innerLoop, readFlag, emit_log, emit_progress,
        envCancelLate, St.init, stepStart14, stepEnd14, openedA, ppCast]
    exact ⟨rfl, rfl, hA,
      c1_cancel_during_step_unwinds.2 envCancelLate 4 1 "Example Domain"
        "https://example.com" [] St.init _ rfl rfl hA rfl⟩
